import Mathlib

/-!
Shallow embedding of the Vector Database Python client
(src/clients/python/vector_db/client.py).

The client translates typed arguments into wire request messages, sends
each request through a gRPC stub exactly once, checks a response-level
error signal, and normalizes wire results into the public result model.
Pure request building, response handling and normalization are embedded
as Lean functions; the network stub is passed in as an explicit function
argument, and each operation returns the list of wire requests it sent
together with its outcome (Except models a raised Python exception).

Python floats are only forwarded between caller and wire in this client,
never computed on, so they are modelled as rationals.
-/

namespace VectorDB

/-- Python float values handled by the client: forwarded verbatim, never
computed on, hence modelled as rationals. -/
abbrev PFloat := Rat

/-- A Python dict mapping strings to strings, as an association list. -/
abbrev Metadata := List (String × String)

/-- Python `x or d` where `x` is an optional list/dict and `d` the default:
`None` and the empty collection are both falsy, so either yields `d`. -/
def py_or_list {α : Type} (x : Option (List α)) (d : List α) : List α :=
  match x with
  | none => d
  | some [] => d
  | some l => l

/-- Modelled from the spec: the wire InsertRequest message
(pkg/api/grpc/proto/vector.proto is not under src/; field list per §3
VectorRecord and the constructor call in client.py lines 115-121).
Proto3 repeated and map fields carry no presence bit, so `vector` and
`metadata` are plain collections; `text` and `id` are scalar optional
fields with presence, and passing Python `None` for them leaves them
unset. -/
structure InsertRequest where
  ns : String
  vector : List PFloat
  metadata : Metadata
  text : Option String
  id : Option String
  deriving Repr, DecidableEq

/-- Modelled from the spec: the wire SearchRequest message (vector.proto
is not under src/; fields per §3 SearchQuery and client.py lines 158-164). -/
structure SearchRequest where
  ns : String
  query_vector : List PFloat
  k : Int
  ef_search : Int
  distance_metric : String
  deriving Repr, DecidableEq

/-- Modelled from the spec: the wire HybridSearchConfig fusion descriptor
(vector.proto is not under src/; fields per §3 HybridSearchQuery and
client.py lines 214-219). -/
structure HybridSearchConfig where
  fusion_method : String
  vector_weight : PFloat
  text_weight : PFloat
  rrf_k : Int
  deriving Repr, DecidableEq

/-- Modelled from the spec: the wire HybridSearchRequest message
(vector.proto is not under src/; fields per §3 and client.py lines 221-228). -/
structure HybridSearchRequest where
  ns : String
  query_vector : List PFloat
  query_text : String
  k : Int
  ef_search : Int
  config : HybridSearchConfig
  deriving Repr, DecidableEq

/-- Modelled from the spec: the wire UpdateRequest message (vector.proto
is not under src/; fields per §4.2 update and client.py lines 302-308).
Proto3 repeated and map fields carry no presence bit, so an empty
`vector`/`metadata` is the same message as an unset one; `text` is a
scalar optional field with presence. -/
structure UpdateRequest where
  ns : String
  id : String
  vector : List PFloat
  metadata : Metadata
  text : Option String
  deriving Repr, DecidableEq

/-- Modelled from the spec: the wire DeleteRequest message (vector.proto
is not under src/; fields per §4.2 and client.py lines 328-331). -/
structure DeleteRequest where
  ns : String
  id : String
  deriving Repr, DecidableEq

/-- Modelled from the spec: one wire search result record (vector.proto is
not under src/; fields per §3 SearchResult). Repeated/map fields
(`vector`, `metadata`) carry no presence bit; scalar optional fields
(`text`, `vector_score`, `text_score`) carry presence, `none` meaning the
server never set them. -/
structure WireSearchResult where
  id : String
  distance : PFloat
  vector : List PFloat
  metadata : Metadata
  text : Option String
  vector_score : Option PFloat
  text_score : Option PFloat
  deriving Repr, DecidableEq

/-- Modelled from the spec: the wire InsertResponse message, with the
fields client.py reads (success, id, error). -/
structure InsertResponse where
  success : Bool
  id : String
  error : String
  deriving Repr, DecidableEq

/-- Modelled from the spec: the wire SearchResponse / HybridSearchResponse
message, with the fields client.py reads (results, error). -/
structure SearchResponse where
  results : List WireSearchResult
  error : String
  deriving Repr, DecidableEq

/-- Modelled from the spec: the wire UpdateResponse message, with the
fields client.py reads (success, error). -/
structure UpdateResponse where
  success : Bool
  error : String
  deriving Repr, DecidableEq

/-- Modelled from the spec: the wire DeleteResponse message, with the
fields client.py reads (success, deleted_count, error). -/
structure DeleteResponse where
  success : Bool
  deleted_count : Int
  error : String
  deriving Repr, DecidableEq

/-- Modelled from the spec: the aggregated BatchInsert response message,
with the fields client.py reads (client.py lines 277-283). -/
structure BatchResponse where
  inserted_count : Int
  failed_count : Int
  inserted_ids : List String
  errors : List String
  total_time_ms : PFloat
  deriving Repr, DecidableEq

/-- The public SearchResult dataclass (client.py lines 25-34): all
optional fields default to Python None. -/
structure SearchResult where
  id : String
  distance : PFloat
  vector : Option (List PFloat)
  metadata : Option Metadata
  text : Option String
  vector_score : Option PFloat
  text_score : Option PFloat
  deriving Repr, DecidableEq

/-- The dict returned by batch_insert (client.py lines 277-283). -/
structure BatchOutcome where
  inserted_count : Int
  failed_count : Int
  inserted_ids : List String
  errors : List String
  total_time_ms : PFloat
  deriving Repr, DecidableEq

/-! Request builders, translated from client.py. -/

/-- InsertRequest construction (client.py lines 115-121): metadata is
`metadata or {}`, text and id are passed through (None stays unset). -/
def insert_request (ns : String) (vector : List PFloat) (metadata : Option Metadata)
    (text : Option String) (id : Option String) : InsertRequest :=
  { ns := ns, vector := vector, metadata := py_or_list metadata [],
    text := text, id := id }

/-- SearchRequest construction (client.py lines 158-164): all arguments
forwarded as given; no validation is performed. -/
def search_request (ns : String) (query_vector : List PFloat) (k : Int)
    (ef_search : Int) (distance_metric : String) : SearchRequest :=
  { ns := ns, query_vector := query_vector, k := k, ef_search := ef_search,
    distance_metric := distance_metric }

/-- HybridSearchRequest construction (client.py lines 214-228): the fusion
descriptor forwards fusion_method and both weights as given and always
sends rrf_k = 60. -/
def hybrid_request (ns : String) (query_vector : List PFloat) (query_text : String)
    (k : Int) (ef_search : Int) (fusion_method : String)
    (vector_weight : PFloat) (text_weight : PFloat) : HybridSearchRequest :=
  { ns := ns, query_vector := query_vector, query_text := query_text,
    k := k, ef_search := ef_search,
    config := { fusion_method := fusion_method, vector_weight := vector_weight,
                text_weight := text_weight, rrf_k := 60 } }

/-- DeleteRequest construction (client.py lines 328-331): namespace and id
forwarded as given. -/
def delete_request (ns : String) (id : String) : DeleteRequest :=
  { ns := ns, id := id }

/-- UpdateRequest construction (client.py lines 302-308): vector is
`vector or []`, metadata is `metadata or {}`, text is passed through. -/
def update_request (ns : String) (id : String) (vector : Option (List PFloat))
    (metadata : Option Metadata) (text : Option String) : UpdateRequest :=
  { ns := ns, id := id, vector := py_or_list vector [],
    metadata := py_or_list metadata [], text := text }

/-! Response handling, translated from client.py. An `Except.error`
models a raised Python exception carrying the exception message. -/

/-- Insert response handling (client.py lines 125-128). -/
def insert_handle (r : InsertResponse) : Except String String :=
  if !r.success then Except.error ("Insert failed: " ++ r.error)
  else Except.ok r.id

/-- Update response handling (client.py lines 312-315): on success the
call returns the literal True. -/
def update_handle (r : UpdateResponse) : Except String Bool :=
  if !r.success then Except.error ("Update failed: " ++ r.error)
  else Except.ok true

/-- Delete response handling (client.py lines 335-338). -/
def delete_handle (r : DeleteResponse) : Except String Int :=
  if !r.success then Except.error ("Delete failed: " ++ r.error)
  else Except.ok r.deleted_count

/-- Reading a presence-tracked protobuf string field from Python: the set
value, or the proto3 default empty string when unset. -/
def proto_read_str (x : Option String) : String := x.getD ""

/-- Reading a presence-tracked protobuf float field from Python: the set
value, or the proto3 default 0 when unset. -/
def proto_read_float (x : Option PFloat) : PFloat := x.getD 0

/-- In the Python protobuf runtime, hasattr on a message is True for every
field declared in the schema, regardless of wire presence; vector_score
and text_score are declared on the wire search result (spec §3). -/
def py_hasattr_declared_field : Bool := true

/-- Normalization of one wire result by search (client.py lines 173-182):
each of vector/metadata/text is surfaced when its Python read is truthy
(non-empty) and mapped to None otherwise; the score fields are never
assigned and keep their dataclass default None. -/
def normalize_search_result (r : WireSearchResult) : SearchResult :=
  { id := r.id
    distance := r.distance
    vector := if r.vector ≠ [] then some r.vector else none
    metadata := if r.metadata ≠ [] then some r.metadata else none
    text := if proto_read_str r.text ≠ "" then some (proto_read_str r.text) else none
    vector_score := none
    text_score := none }

/-- Normalization of one wire result by hybrid_search (client.py lines
236-244): like search, plus `r.vector_score if hasattr(r, ...) else None`
for the two score fields. -/
def normalize_hybrid_result (r : WireSearchResult) : SearchResult :=
  { id := r.id
    distance := r.distance
    vector := if r.vector ≠ [] then some r.vector else none
    metadata := if r.metadata ≠ [] then some r.metadata else none
    text := if proto_read_str r.text ≠ "" then some (proto_read_str r.text) else none
    vector_score := if py_hasattr_declared_field then some (proto_read_float r.vector_score) else none
    text_score := if py_hasattr_declared_field then some (proto_read_float r.text_score) else none }

/-- Search response handling (client.py lines 170-182): error string
checked first, then results normalized. -/
def search_handle (r : SearchResponse) : Except String (List SearchResult) :=
  if r.error ≠ "" then Except.error ("Search failed: " ++ r.error)
  else Except.ok (r.results.map normalize_search_result)

/-- Hybrid search response handling (client.py lines 232-246). -/
def hybrid_handle (r : SearchResponse) : Except String (List SearchResult) :=
  if r.error ≠ "" then Except.error ("Hybrid search failed: " ++ r.error)
  else Except.ok (r.results.map normalize_hybrid_result)

/-! Whole operations: each builds its request, calls the stub exactly once
and handles the one response. The first component is the list of wire
requests the operation sent, in order. -/

/-- The insert operation (client.py lines 91-128). -/
def insert_op (ns : String) (vector : List PFloat) (metadata : Option Metadata)
    (text : Option String) (id : Option String)
    (stub : InsertRequest → InsertResponse) :
    List InsertRequest × Except String String :=
  let request := insert_request ns vector metadata text id
  ([request], insert_handle (stub request))

/-- The search operation (client.py lines 130-182). -/
def search_op (ns : String) (query_vector : List PFloat) (k : Int)
    (ef_search : Int) (distance_metric : String)
    (stub : SearchRequest → SearchResponse) :
    List SearchRequest × Except String (List SearchResult) :=
  let request := search_request ns query_vector k ef_search distance_metric
  ([request], search_handle (stub request))

/-- The hybrid_search operation (client.py lines 184-246). -/
def hybrid_op (ns : String) (query_vector : List PFloat) (query_text : String)
    (k : Int) (ef_search : Int) (fusion_method : String)
    (vector_weight : PFloat) (text_weight : PFloat)
    (stub : HybridSearchRequest → SearchResponse) :
    List HybridSearchRequest × Except String (List SearchResult) :=
  let request := hybrid_request ns query_vector query_text k ef_search
    fusion_method vector_weight text_weight
  ([request], hybrid_handle (stub request))

/-- The update operation (client.py lines 285-315). -/
def update_op (ns : String) (id : String) (vector : Option (List PFloat))
    (metadata : Option Metadata) (text : Option String)
    (stub : UpdateRequest → UpdateResponse) :
    List UpdateRequest × Except String Bool :=
  let request := update_request ns id vector metadata text
  ([request], update_handle (stub request))

/-- The delete operation (client.py lines 317-338). -/
def delete_op (ns : String) (id : String)
    (stub : DeleteRequest → DeleteResponse) :
    List DeleteRequest × Except String Int :=
  let request := delete_request ns id
  ([request], delete_handle (stub request))

/-- The stream of wire insert messages produced by batch_insert's request
generator (client.py lines 267-273): one InsertRequest per (vector,
metadata) pair, in input order, tagged with the namespace; text and id are
never passed, staying unset. -/
def batch_requests (ns : String) : List (List PFloat × Metadata) → List InsertRequest
  | [] => []
  | (vector, metadata) :: rest =>
      { ns := ns, vector := vector, metadata := metadata, text := none, id := none }
        :: batch_requests ns rest

/-- Field-by-field copy of the aggregated batch response into the returned
dict (client.py lines 277-283). -/
def outcome_of_response (r : BatchResponse) : BatchOutcome :=
  { inserted_count := r.inserted_count, failed_count := r.failed_count,
    inserted_ids := r.inserted_ids, errors := r.errors,
    total_time_ms := r.total_time_ms }

/-- The batch_insert operation (client.py lines 248-283): emits the whole
generated stream through one stub call, then copies the single aggregated
response into the returned dict; it performs no error check and raises
nothing. -/
def batch_insert (ns : String) (vectors : List (List PFloat × Metadata))
    (stub : List InsertRequest → BatchResponse) : BatchOutcome :=
  outcome_of_response (stub (batch_requests ns vectors))

/-- Modelled from the spec: the server's aggregated response to an empty
batch stream (the server is not under src/; §4.5 requires all counts zero
for empty input). -/
def empty_stream_response : BatchResponse :=
  { inserted_count := 0, failed_count := 0, inserted_ids := [],
    errors := [], total_time_ms := 0 }

/-! The Python exception class used at each explicit raise site of
client.py: every raise statement in the file is `raise Exception(...)`. -/

/-- Exception class raised on insert failure (client.py line 126). -/
def insert_raise_class : String := "Exception"

/-- Exception class raised on search failure (client.py line 171). -/
def search_raise_class : String := "Exception"

/-- Exception class raised on hybrid_search failure (client.py line 233). -/
def hybrid_raise_class : String := "Exception"

/-- Exception class raised on update failure (client.py line 313). -/
def update_raise_class : String := "Exception"

/-- Exception class raised on delete failure (client.py line 336). -/
def delete_raise_class : String := "Exception"

/-! Helper lemmas about the batch stream. -/

lemma batch_requests_length (ns : String) (vs : List (List PFloat × Metadata)) :
    (batch_requests ns vs).length = vs.length := by
  induction vs with
  | nil => rfl
  | cons p rest ih =>
      cases p
      simp [batch_requests, ih]

lemma batch_requests_get? (ns : String) (vs : List (List PFloat × Metadata)) (i : Nat) :
    (batch_requests ns vs).get? i =
      (vs.get? i).map (fun p =>
        { ns := ns, vector := p.1, metadata := p.2, text := none, id := none }) := by
  induction vs generalizing i with
  | nil => cases i <;> rfl
  | cons p rest ih =>
      cases p
      cases i with
      | zero => rfl
      | succ j => exact ih j

/-! Theorems settling the claims. -/

/-- C1 counterexample: the claim says the update builder never substitutes
the empty encoding for the absent one, but an update with vector and
metadata left absent builds the very same wire UpdateRequest as an update
with an explicitly-supplied empty list and empty mapping. -/
theorem update_absent_equals_empty_cex :
    update_request "default" "v1" none none none =
      update_request "default" "v1" (some []) (some []) none := rfl

/-- C1 amended: the update builder coalesces an absent vector and an
absent metadata to the empty collection, identically to explicitly-empty
ones, so for those two fields empty is substituted for absent; only text
preserves the distinction: an absent text stays unset while a supplied
text, including the empty string, is set verbatim. -/
theorem update_field_encoding (ns id : String) (v : Option (List PFloat))
    (m : Option Metadata) (t : Option String) (s : String) :
    update_request ns id none none t = update_request ns id (some []) (some []) t ∧
    (update_request ns id v m none).text = none ∧
    (update_request ns id v m (some s)).text = some s :=
  ⟨rfl, rfl, rfl⟩

/-- C2 counterexample: the claim says insert with an empty vector and
search with k < 1 raise a ValidationError before any network activity,
but with a well-behaved stub, insert of the empty vector sends one wire
request and returns the server id without raising, and search with k = 0
sends one wire request and returns the normalized results without
raising. -/
theorem insert_empty_vector_sends_cex :
    ((insert_op "default" [] none none none
        (fun _ => { success := true, id := "v1", error := "" })).1.length = 1) ∧
    ((insert_op "default" [] none none none
        (fun _ => { success := true, id := "v1", error := "" })).2 = Except.ok "v1") ∧
    ((search_op "default" [1] 0 50 "cosine"
        (fun _ => { results := [], error := "" })).1.length = 1) ∧
    ((search_op "default" [1] 0 50 "cosine"
        (fun _ => { results := [], error := "" })).2 = Except.ok []) := by
  refine ⟨rfl, ?_, rfl, ?_⟩ <;> rfl

/-- C2 amended: the client performs no validation of insert's vector or of
search's k; for every argument list, including an empty vector and any
k < 1, the wire request is built from the arguments as given and sent,
and the outcome is exactly the handling of the stub's response. -/
theorem no_client_validation (ns : String) (m : Option Metadata)
    (t i : Option String) (qv : List PFloat) (k ef : Int) (dm : String)
    (istub : InsertRequest → InsertResponse)
    (sstub : SearchRequest → SearchResponse) :
    (insert_op ns [] m t i istub).1 = [insert_request ns [] m t i] ∧
    (insert_op ns [] m t i istub).2 = insert_handle (istub (insert_request ns [] m t i)) ∧
    (search_op ns qv k ef dm sstub).1 = [search_request ns qv k ef dm] ∧
    (search_op ns qv k ef dm sstub).2 = search_handle (sstub (search_request ns qv k ef dm)) :=
  ⟨rfl, rfl, rfl, rfl⟩

/-- C3 counterexample: the claim says a server-populated empty-string text
is distinguishable from the field being absent, but the search normalizer
maps a wire result whose text the server explicitly set to the empty
string to text = none, the unset representation. -/
theorem text_empty_collapsed_cex :
    ({ id := "a", distance := 0, vector := [], metadata := [], text := some "",
       vector_score := none, text_score := none } : WireSearchResult).text ≠ none ∧
    (normalize_search_result
      { id := "a", distance := 0, vector := [], metadata := [], text := some "",
        vector_score := none, text_score := none }).text = none := by
  exact ⟨by decide, rfl⟩

/-- C3 amended: the search normalizer surfaces a field exactly when its
Python read is non-empty: a wire text that was never set or was set to
the empty string yields text = none (the two are collapsed), a non-empty
text is surfaced verbatim, vector/metadata are surfaced exactly when the
wire collection is non-empty, and distance is always copied verbatim,
including 0.0; the score fields are always none on this path. -/
theorem search_normalize_optional_fields (r : WireSearchResult) :
    (normalize_search_result r).id = r.id ∧
    (normalize_search_result r).distance = r.distance ∧
    ((normalize_search_result r).text = none ↔ proto_read_str r.text = "") ∧
    (proto_read_str r.text ≠ "" ↔
      (normalize_search_result r).text = some (proto_read_str r.text)) ∧
    ((normalize_search_result r).vector = none ↔ r.vector = []) ∧
    (r.vector ≠ [] ↔ (normalize_search_result r).vector = some r.vector) ∧
    ((normalize_search_result r).metadata = none ↔ r.metadata = []) ∧
    (r.metadata ≠ [] ↔ (normalize_search_result r).metadata = some r.metadata) ∧
    (normalize_search_result r).vector_score = none ∧
    (normalize_search_result r).text_score = none := by
  by_cases ht : proto_read_str r.text = "" <;>
    by_cases hv : r.vector = [] <;>
      by_cases hm : r.metadata = [] <;>
        simp [normalize_search_result, ht, hv, hm]

/-- C4: evaluating the hybrid normalizer at the failing input: for a wire
result whose vector_score and text_score the server never populated, the
normalizer reports both scores as 0 (hasattr on a declared protobuf field
is always True, so the None branch is dead and the proto3 default 0.0 is
surfaced), instead of the unset value none the claim requires. -/
theorem hybrid_unset_score_is_zero :
    (normalize_hybrid_result
      { id := "a", distance := 1, vector := [], metadata := [], text := none,
        vector_score := none, text_score := none }).vector_score = some 0 ∧
    (normalize_hybrid_result
      { id := "a", distance := 1, vector := [], metadata := [], text := none,
        vector_score := none, text_score := none }).text_score = some 0 :=
  ⟨rfl, rfl⟩

/-- C5: every operation calls the stub exactly once: its wire traffic is
the singleton list holding the one built request, and its outcome is the
handling of that single response, so no automatic retry is performed; the
response-level error signal is checked first: insert/update/delete raise
exactly when the success flag is false, search/hybrid_search raise
exactly when the error string is non-empty, each raised message embeds
the server-provided error verbatim after a fixed operation label, and on
a clear signal the call returns normally. -/
theorem error_signal_checked
    (ns id qt dm fm : String) (vec qv : List PFloat) (mo : Option Metadata)
    (tx ix : Option String) (vx : Option (List PFloat)) (k ef : Int)
    (vw tw : PFloat)
    (istub : InsertRequest → InsertResponse)
    (sstub : SearchRequest → SearchResponse)
    (hstub : HybridSearchRequest → SearchResponse)
    (ustub : UpdateRequest → UpdateResponse)
    (dstub : DeleteRequest → DeleteResponse)
    (ri : InsertResponse) (ru : UpdateResponse)
    (rd : DeleteResponse) (rs rh : SearchResponse) :
    (insert_op ns vec mo tx ix istub =
      ([insert_request ns vec mo tx ix],
       insert_handle (istub (insert_request ns vec mo tx ix)))) ∧
    (search_op ns qv k ef dm sstub =
      ([search_request ns qv k ef dm],
       search_handle (sstub (search_request ns qv k ef dm)))) ∧
    (hybrid_op ns qv qt k ef fm vw tw hstub =
      ([hybrid_request ns qv qt k ef fm vw tw],
       hybrid_handle (hstub (hybrid_request ns qv qt k ef fm vw tw)))) ∧
    (update_op ns id vx mo tx ustub =
      ([update_request ns id vx mo tx],
       update_handle (ustub (update_request ns id vx mo tx)))) ∧
    (delete_op ns id dstub =
      ([delete_request ns id],
       delete_handle (dstub (delete_request ns id)))) ∧
    (insert_op ns vec mo tx ix istub).1.length = 1 ∧
    (search_op ns qv k ef dm sstub).1.length = 1 ∧
    (hybrid_op ns qv qt k ef fm vw tw hstub).1.length = 1 ∧
    (update_op ns id vx mo tx ustub).1.length = 1 ∧
    (delete_op ns id dstub).1.length = 1 ∧
    (insert_handle ri = Except.ok ri.id ↔ ri.success = true) ∧
    (insert_handle ri = Except.error ("Insert failed: " ++ ri.error) ↔ ri.success = false) ∧
    (update_handle ru = Except.ok true ↔ ru.success = true) ∧
    (update_handle ru = Except.error ("Update failed: " ++ ru.error) ↔ ru.success = false) ∧
    (delete_handle rd = Except.ok rd.deleted_count ↔ rd.success = true) ∧
    (delete_handle rd = Except.error ("Delete failed: " ++ rd.error) ↔ rd.success = false) ∧
    ((∃ out, search_handle rs = Except.ok out) ↔ rs.error = "") ∧
    (search_handle rs = Except.error ("Search failed: " ++ rs.error) ↔ rs.error ≠ "") ∧
    ((∃ out, hybrid_handle rh = Except.ok out) ↔ rh.error = "") ∧
    (hybrid_handle rh = Except.error ("Hybrid search failed: " ++ rh.error) ↔ rh.error ≠ "") := by
  refine ⟨rfl, rfl, rfl, rfl, rfl, rfl, rfl, rfl, rfl, rfl, ?_⟩
  cases hsi : ri.success <;> cases hsu : ru.success <;> cases hsd : rd.success <;>
    by_cases hrs : rs.error = "" <;> by_cases hrh : rh.error = "" <;>
      simp [insert_handle, update_handle, delete_handle, search_handle,
            hybrid_handle, hsi, hsu, hsd, hrs, hrh]

/-- C6 counterexample: the claim says the four error kinds are distinct
catchable conditions, but every explicit raise site in the client uses
one and the same Python exception class, so a Python except clause that
catches the failure of any one operation necessarily catches them all. -/
theorem single_exception_class_cex :
    insert_raise_class = update_raise_class ∧
    search_raise_class = update_raise_class ∧
    hybrid_raise_class = update_raise_class ∧
    delete_raise_class = update_raise_class :=
  ⟨rfl, rfl, rfl, rfl⟩

/-- C6 amended: the client raises every operation-level failure with the
single generic Exception class, so the four named kinds are not distinct
catchable conditions; failures are nonetheless propagated, never
swallowed: every failure signal in a response yields a raised error. -/
theorem errors_propagate_single_class :
    (insert_raise_class = "Exception" ∧ search_raise_class = "Exception" ∧
     hybrid_raise_class = "Exception" ∧ update_raise_class = "Exception" ∧
     delete_raise_class = "Exception") ∧
    (∀ ri : InsertResponse, ri.success = false →
      insert_handle ri = Except.error ("Insert failed: " ++ ri.error)) ∧
    (∀ rs : SearchResponse, rs.error ≠ "" →
      search_handle rs = Except.error ("Search failed: " ++ rs.error)) ∧
    (∀ ru : UpdateResponse, ru.success = false →
      update_handle ru = Except.error ("Update failed: " ++ ru.error)) := by
  refine ⟨⟨rfl, rfl, rfl, rfl, rfl⟩, ?_, ?_, ?_⟩
  · intro ri h
    simp [insert_handle, h]
  · intro rs h
    simp [search_handle, h]
  · intro ru h
    simp [update_handle, h]

/-- C6 witness for the amended theorem, at concrete failing responses. -/
theorem errors_propagate_single_class_witness :
    insert_handle { success := false, id := "", error := "boom" } =
      Except.error ("Insert failed: " ++ "boom") ∧
    search_handle { results := [], error := "boom" } =
      Except.error ("Search failed: " ++ "boom") ∧
    update_handle { success := false, error := "boom" } =
      Except.error ("Update failed: " ++ "boom") :=
  ⟨errors_propagate_single_class.2.1 _ rfl,
   errors_propagate_single_class.2.2.1 _ (by decide),
   errors_propagate_single_class.2.2.2 _ rfl⟩

/-- C7: batch_insert's generated stream holds exactly one wire insert
message per input pair, the i-th message carrying the given namespace and
the i-th pair's vector and metadata (input order preserved, indices
beyond the input yielding nothing), and the operation consumes exactly
one aggregated response to the complete stream. -/
theorem batch_insert_stream_order (ns : String)
    (vs : List (List PFloat × Metadata))
    (stub : List InsertRequest → BatchResponse) :
    (batch_requests ns vs).length = vs.length ∧
    (∀ i : Nat, (batch_requests ns vs).get? i =
      (vs.get? i).map (fun p =>
        { ns := ns, vector := p.1, metadata := p.2, text := none, id := none })) ∧
    batch_insert ns vs stub = outcome_of_response (stub (batch_requests ns vs)) :=
  ⟨batch_requests_length ns vs, fun i => batch_requests_get? ns vs i, rfl⟩

/-- C8: the fusion descriptor placed in the wire hybrid-search request
forwards fusion_method, vector_weight and text_weight exactly as supplied
by the caller, sends rank-fusion constant 60, and the surrounding request
forwards the remaining arguments unchanged. -/
theorem hybrid_config_forwarding (ns : String) (qv : List PFloat) (qt : String)
    (k ef : Int) (fm : String) (vw tw : PFloat) :
    (hybrid_request ns qv qt k ef fm vw tw).config.fusion_method = fm ∧
    (hybrid_request ns qv qt k ef fm vw tw).config.vector_weight = vw ∧
    (hybrid_request ns qv qt k ef fm vw tw).config.text_weight = tw ∧
    (hybrid_request ns qv qt k ef fm vw tw).config.rrf_k = 60 ∧
    (hybrid_request ns qv qt k ef fm vw tw).ns = ns ∧
    (hybrid_request ns qv qt k ef fm vw tw).query_vector = qv ∧
    (hybrid_request ns qv qt k ef fm vw tw).query_text = qt ∧
    (hybrid_request ns qv qt k ef fm vw tw).k = k ∧
    (hybrid_request ns qv qt k ef fm vw tw).ef_search = ef :=
  ⟨rfl, rfl, rfl, rfl, rfl, rfl, rfl, rfl, rfl⟩

/-- C9: for an empty input sequence, batch_insert emits no wire messages,
and whenever the server answers the empty stream with the zero aggregated
response, the returned outcome has inserted_count = 0, failed_count = 0,
empty inserted_ids and empty errors; batch_insert raises no error (it is
a total function with no failure path). -/
theorem batch_insert_empty_input (ns : String)
    (stub : List InsertRequest → BatchResponse)
    (h : stub [] = empty_stream_response) :
    batch_requests ns [] = [] ∧
    (batch_insert ns [] stub).inserted_count = 0 ∧
    (batch_insert ns [] stub).failed_count = 0 ∧
    (batch_insert ns [] stub).inserted_ids = [] ∧
    (batch_insert ns [] stub).errors = [] := by
  refine ⟨rfl, ?_, ?_, ?_, ?_⟩ <;>
    simp [batch_insert, batch_requests, h, outcome_of_response, empty_stream_response]

/-- C9 witness for the empty-input theorem, with the stub that returns the
zero aggregated response. -/
theorem batch_insert_empty_input_witness :
    batch_requests "default" [] = [] ∧
    (batch_insert "default" [] (fun _ => empty_stream_response)).inserted_count = 0 ∧
    (batch_insert "default" [] (fun _ => empty_stream_response)).failed_count = 0 ∧
    (batch_insert "default" [] (fun _ => empty_stream_response)).inserted_ids = [] ∧
    (batch_insert "default" [] (fun _ => empty_stream_response)).errors = [] :=
  batch_insert_empty_input "default" (fun _ => empty_stream_response) rfl

/-- C10: whenever update's response handling returns normally, the
returned value is the literal true; a false return is unreachable, so
failure is signalled only by a raised error. -/
theorem update_ok_implies_true (r : UpdateResponse) (b : Bool)
    (h : update_handle r = Except.ok b) : b = true := by
  rcases r with ⟨s, e⟩
  cases s
  · simp [update_handle] at h
  · simp [update_handle] at h
    exact h

/-- C10 witness: at a successful concrete response, update returns true. -/
theorem update_ok_implies_true_witness :
    update_handle { success := true, error := "" } = Except.ok true ∧ true = true :=
  ⟨rfl, update_ok_implies_true { success := true, error := "" } true rfl⟩

end VectorDB
